import Mathlib

/-!
PMP bare-metal example: embedding and properties.

A shallow embedding of `example-pmp-baremetal.c` for a 32-bit target
(`__riscv_xlen == 32`): the preprocessor constants, the two procedures
`main` and `default_exception_handler` as functions over an explicit program
state and an abstract hart, and the properties of the specification.

Integers are natural numbers. A 32-bit quantity is reduced modulo `2 ^ 32`
where the C code converts it (`u32`).
-/

namespace PmpBaremetal

/-! ## Preprocessor constants -/

/-- Conversion of a value to a 32-bit unsigned quantity. -/
def u32 (x : Nat) : Nat := x % 2 ^ 32

/-- Macro `#define RAM_LOCATION_FOR_TEST 0x80000100`. -/
def RAM_LOCATION_FOR_TEST : Nat := 0x80000100

/-- Macro `#define REGION0_ADDR (0x40400000 >> 2)`. -/
def REGION0_ADDR : Nat := 0x40400000 >>> 2

/-- Macro `#define REGION1_ADDR (RAM_LOCATION_FOR_TEST >> 2)`. -/
def REGION1_ADDR : Nat := RAM_LOCATION_FOR_TEST >>> 2

/-- Macro `#define REGION2_ADDR (0x80008000 >> 2)`. -/
def REGION2_ADDR : Nat := 0x80008000 >>> 2

/-- Macro `#define REGION3_ADDR (0x80010000 >> 2)`. -/
def REGION3_ADDR : Nat := 0x80010000 >>> 2

/-- Macro `#define R (1 << 0)`. -/
def R : Nat := 1 <<< 0

/-- Macro `#define W (1 << 1)`. -/
def W : Nat := 1 <<< 1

/-- Macro `#define X (1 << 2)`. -/
def X : Nat := 1 <<< 2

/-- Macro `#define A(x) (x & 3) << 3`, the macro body as a function of its argument. -/
def A (x : Nat) : Nat := (x &&& 3) <<< 3

/-- Macro `#define A_OFF A(0)`. -/
def A_OFF : Nat := A 0

/-- Macro `#define A_TOR A(1)`. -/
def A_TOR : Nat := A 1

/-- Macro `#define A_NA4 A(2)`. -/
def A_NA4 : Nat := A 2

/-- Macro `#define A_NAPOT A(3)`. -/
def A_NAPOT : Nat := A 3

/-- Macro `#define L (1 << 7)`. -/
def L : Nat := 1 <<< 7

/-- Macro `#define RWX (R|W|X)`. -/
def RWX : Nat := R ||| W ||| X

/-- Macro `#define RX (R|X)`. -/
def RX : Nat := R ||| X

/-- Macro `#define PMP0_CFG_SHIFT 0`. -/
def PMP0_CFG_SHIFT : Nat := 0

/-- Macro `#define PMP1_CFG_SHIFT 8`. -/
def PMP1_CFG_SHIFT : Nat := 8

/-- Macro `#define PMP2_CFG_SHIFT 16`. -/
def PMP2_CFG_SHIFT : Nat := 16

/-- Macro `#define PMP3_CFG_SHIFT 24`. -/
def PMP3_CFG_SHIFT : Nat := 24

/-- Macro `#define PMPCONFIG0 (...)`, the value written to the CSR `pmpcfg0`. The
four terms are the source's, with `A_TOR` standing for the value of its macro.
In C the expression has type `int`; this is its 32-bit pattern, the value the
conversion to `unsigned long` gives on the 32-bit target. -/
def PMPCONFIG0 : Nat :=
  (((RWX ||| A_TOR ||| L) &&& 0xFF) <<< PMP0_CFG_SHIFT) |||
  (((RX ||| A_TOR ||| L) &&& 0xFF) <<< PMP1_CFG_SHIFT) |||
  (((RX ||| A_TOR ||| L) &&& 0xFF) <<< PMP2_CFG_SHIFT) |||
  (((RWX ||| A_TOR ||| L) &&& 0xFF) <<< PMP3_CFG_SHIFT)

/-- The text of `PMPCONFIG0` after macro expansion, token for token: `A_TOR`
is replaced by the unparenthesised body `(1 & 3) << 3`. The shift binds
tighter than `|` here as it does in C. -/
def PMPCONFIG0_expanded : Nat :=
  ((((((1 <<< 0) ||| (1 <<< 1) ||| (1 <<< 2)) ||| (1 &&& 3) <<< 3 ||| (1 <<< 7)) &&& 0xFF) <<< 0) |||
   (((((1 <<< 0) ||| (1 <<< 2)) ||| (1 &&& 3) <<< 3 ||| (1 <<< 7)) &&& 0xFF) <<< 8) |||
   (((((1 <<< 0) ||| (1 <<< 2)) ||| (1 &&& 3) <<< 3 ||| (1 <<< 7)) &&& 0xFF) <<< 16) |||
   (((((1 <<< 0) ||| (1 <<< 1) ||| (1 <<< 2)) ||| (1 &&& 3) <<< 3 ||| (1 <<< 7)) &&& 0xFF) <<< 24))

/-- Macro `#define MCAUSE_CAUSE 0x000003FFUL`. -/
def MCAUSE_CAUSE : Nat := 0x000003FF

/-- Macro `#define MCAUSE_CODE(cause) (cause & MCAUSE_CAUSE)`. -/
def MCAUSE_CODE (cause : Nat) : Nat := cause &&& MCAUSE_CAUSE

/-- Macro `#define DATA_VALUE_NO_PROTECTION 0xAAAAAAAA`. -/
def DATA_VALUE_NO_PROTECTION : Nat := 0xAAAAAAAA

/-- Macro `#define DATA_VALUE_PMP_ENABLED 0xEEEEEEEE`. -/
def DATA_VALUE_PMP_ENABLED : Nat := 0xEEEEEEEE

/-! ## Packed configuration register -/

/-- Byte `i` of a configuration register value: `(cfg >> (8*i)) & 0xFF`. -/
def cfgByte (cfg i : Nat) : Nat := (cfg >>> (8 * i)) &&& 0xFF

/-- Re-packing of four configuration bytes into one register value, each at
its `PMPn_CFG_SHIFT`. -/
def packCfg (b0 b1 b2 b3 : Nat) : Nat :=
  (b0 <<< PMP0_CFG_SHIFT) ||| (b1 <<< PMP1_CFG_SHIFT) |||
  (b2 <<< PMP2_CFG_SHIFT) ||| (b3 <<< PMP3_CFG_SHIFT)

/-- The addressing-mode field of a configuration byte, bits 4:3. -/
def cfgMode (b : Nat) : Nat := (b >>> 3) &&& 3

/-- Whether a configuration byte has the given permission or lock bit. -/
def hasBit (b bit : Nat) : Bool := (b &&& bit) != 0

/-! ## The hart seen by the program -/

/-- The control and status registers the program names. -/
inductive Csr
  | mtvec | mcause | pmpaddr0 | pmpaddr1 | pmpaddr2 | pmpaddr3 | pmpcfg0
  deriving DecidableEq, Repr

/-- The `printf` call sites of the program, in source order. -/
inductive Msg
  | initial_write_passes
  | initial_write_failed
  | region0_not_ok
  | region1_not_ok
  | region2_not_ok
  | region3_not_ok
  | pmpconfig0_not_ok
  | protection_not_correct
  | unexpected_exception
  | exception_as_expected
  | now_exiting
  deriving DecidableEq, Repr

/-- The format string of each `printf` call site. -/
def Msg.format : Msg → String
  | .initial_write_passes => "Initial write to location 0x%08x passes!\n"
  | .initial_write_failed => "Initial write did not succeed.  Check Setup...\n"
  | .region0_not_ok => "region0 NOT OK! Written: 0x%08x, Exp: 0x%08x\n"
  | .region1_not_ok => "region1 NOT OK! Written: 0x%08x, Exp: 0x%08x\n"
  | .region2_not_ok => "region2 NOT OK! Written: 0x%08x, Exp: 0x%08x\n"
  | .region3_not_ok => "region3 NOT OK! Written: %08x, Exp: %08x\n"
  | .pmpconfig0_not_ok => "pmpconfig0 NOT OK! Written: 0x%08x, Exp: 0x%08x\n"
  | .protection_not_correct => "PMP protection not correct - check config!  Test Failed!\n"
  | .unexpected_exception => "Unexpected Exception Hit!  PMP not enabled correctly - check Setup...\n"
  | .exception_as_expected => "Exception Hit as Expected! Exception Code: 0x%02x\n"
  | .now_exiting => "Now Exiting...\n"

/-- What the program does to the outside, in program order. -/
inductive Event
  | csrw (reg : Csr) (val : Nat)
  | store (addr val : Nat)
  | trap
  | printf (msg : Msg) (args : List Nat)
  deriving DecidableEq, Repr

/-- Result of a store instruction: it retires, or it raises an exception and
control goes to the trap vector. Either way the hart is left in some state. -/
inductive StoreResult (σ : Type)
  | done (next : σ)
  | trap (next : σ)
  deriving DecidableEq, Repr

/-- The hardware under the program, left abstract: any state type and any
behaviour of stores, loads and CSR accesses. `vector_table` is the address of
`__mtvec_clint_vector_table`, which the program only references. Stores are the
only instructions that may raise an exception here. Loads and CSR reads do not
change the hart. -/
structure Hart (σ : Type) where
  vector_table : Nat
  store : σ → Nat → Nat → StoreResult σ
  load : σ → Nat → Nat
  csrw : σ → Csr → Nat → σ
  csrr : σ → Csr → Nat

/-- The program state: the hart, the globals `memptr` and `return_code`, and
the events so far (oldest first). -/
structure State (σ : Type) where
  hart : σ
  memptr : Nat
  return_code : Nat
  out : List Event
  deriving DecidableEq, Repr

/-- How a run ends: `main` returns a value, or `exit` is called. -/
inductive Outcome
  | returned (value : Nat)
  | exited (status : Nat)
  deriving DecidableEq, Repr

/-- The process exit status of a run: the argument of `exit`, or the value
`main` returned to the C runtime. -/
def Outcome.status : Outcome → Nat
  | .returned value => value
  | .exited status => status

/-- The globals at program start: `int *memptr, return_code = 0;`. -/
def State.init {σ : Type} (h : σ) : State σ :=
  { hart := h, memptr := 0, return_code := 0, out := [] }

/-- Macro `write_csr(reg, val)`: the instruction `csrw reg, val`. -/
def write_csr {σ : Type} (hw : Hart σ) (reg : Csr) (val : Nat) (s : State σ) : State σ :=
  { s with hart := hw.csrw s.hart reg val, out := s.out ++ [Event.csrw reg val] }

/-- Macro `read_csr(reg)`: the instruction `csrr`, its result an `unsigned long`. -/
def read_csr {σ : Type} (hw : Hart σ) (reg : Csr) (s : State σ) : Nat :=
  u32 (hw.csrr s.hart reg)

/-- Call `printf(fmt, args...)`: one line on the console. -/
def printf {σ : Type} (msg : Msg) (args : List Nat) (s : State σ) : State σ :=
  { s with out := s.out ++ [Event.printf msg args] }

/-- The value of `*memptr` in a comparison with an unsigned 32-bit constant. -/
def deref {σ : Type} (hw : Hart σ) (s : State σ) : Nat :=
  u32 (hw.load s.hart s.memptr)

/-- Statement `*memptr = val;`: the store is attempted; it retires or traps. -/
def assign {σ : Type} (hw : Hart σ) (val : Nat) (s : State σ) : StoreResult (State σ) :=
  match hw.store s.hart s.memptr val with
  | .done h => .done { s with hart := h, out := s.out ++ [Event.store s.memptr val] }
  | .trap h => .trap { s with hart := h, out := s.out ++ [Event.store s.memptr val, Event.trap] }

/-! ## The program -/

/-- Procedure `void default_exception_handler(void)`. It ends in `exit (return_code)`. -/
def default_exception_handler {σ : Type} (hw : Hart σ) (s : State σ) : Outcome × State σ :=
  let s :=
    if deref hw s = DATA_VALUE_PMP_ENABLED then
      let s := { s with return_code := 0xFF }
      printf Msg.unexpected_exception [] s
    else
      let s := { s with return_code := 0 }
      printf Msg.exception_as_expected [MCAUSE_CODE (read_csr hw Csr.mcause s)] s
  let s := printf Msg.now_exiting [] s
  (Outcome.exited s.return_code, s)

/-- Lines 152 to 183 of `main`: the writes of the address CSRs, their
readback checks, the write of `pmpcfg0` and its readback check. Straight-line
code, kept as a block of its own; `main` runs it in place. -/
def configure_regions {σ : Type} (hw : Hart σ) (s : State σ) : State σ :=
  let s := write_csr hw Csr.pmpaddr3 REGION3_ADDR s
  let s := write_csr hw Csr.pmpaddr2 REGION2_ADDR s
  let s := write_csr hw Csr.pmpaddr1 REGION1_ADDR s
  let s := write_csr hw Csr.pmpaddr0 REGION0_ADDR s
  let region0 := read_csr hw Csr.pmpaddr0 s
  let s := if region0 ≠ REGION0_ADDR then
    printf Msg.region0_not_ok [REGION0_ADDR, region0] s else s
  let region1 := read_csr hw Csr.pmpaddr1 s
  let s := if region1 ≠ REGION1_ADDR then
    printf Msg.region1_not_ok [REGION1_ADDR, region1] s else s
  let region2 := read_csr hw Csr.pmpaddr2 s
  let s := if region2 ≠ REGION2_ADDR then
    printf Msg.region2_not_ok [REGION2_ADDR, region2] s else s
  let region3 := read_csr hw Csr.pmpaddr3 s
  let s := if region3 ≠ REGION3_ADDR then
    printf Msg.region3_not_ok [REGION3_ADDR, region2] s else s
  let s := write_csr hw Csr.pmpcfg0 PMPCONFIG0 s
  let pmpconfig0_read := read_csr hw Csr.pmpcfg0 s
  if pmpconfig0_read ≠ PMPCONFIG0 then
    printf Msg.pmpconfig0_not_ok [PMPCONFIG0, pmpconfig0_read] s else s

/-- Procedure `int main()`. A store that traps passes control, through the vector table,
to `default_exception_handler`, which does not come back. -/
def main {σ : Type} (hw : Hart σ) (s : State σ) : Outcome × State σ :=
  let mtvec_base := hw.vector_table
  let s := write_csr hw Csr.mtvec mtvec_base s
  let s := { s with return_code := 1 }
  let s := { s with memptr := RAM_LOCATION_FOR_TEST }
  match assign hw DATA_VALUE_NO_PROTECTION s with
  | .trap s => default_exception_handler hw s
  | .done s =>
  if deref hw s = DATA_VALUE_NO_PROTECTION then
    let s := printf Msg.initial_write_passes [s.memptr] s
    let s := configure_regions hw s
    match assign hw DATA_VALUE_PMP_ENABLED s with
    | .trap s => default_exception_handler hw s
    | .done s =>
    let s := { s with return_code := 0xFA17 }
    let s := printf Msg.protection_not_correct [] s
    (Outcome.returned s.return_code, s)
  else
    let s := printf Msg.initial_write_failed [] s
    (Outcome.returned 0xFA, s)

/-! ## Views of the event list -/

/-- The CSR writes among the events, in order. -/
def csrWrites : List Event → List (Csr × Nat)
  | [] => []
  | Event.csrw reg val :: rest => (reg, val) :: csrWrites rest
  | _ :: rest => csrWrites rest

/-- The stores to memory among the events, in order. -/
def stores : List Event → List (Nat × Nat)
  | [] => []
  | Event.store addr val :: rest => (addr, val) :: stores rest
  | _ :: rest => stores rest

/-- Whether a CSR is one of `pmpaddr0..pmpaddr3`, `pmpcfg0`. -/
def Csr.isPmp : Csr → Bool
  | .pmpaddr0 | .pmpaddr1 | .pmpaddr2 | .pmpaddr3 | .pmpcfg0 => true
  | _ => false

/-- The register-readback diagnostics of `main`. -/
def Msg.isReadbackDiag : Msg → Bool
  | .region0_not_ok | .region1_not_ok | .region2_not_ok | .region3_not_ok
  | .pmpconfig0_not_ok => true
  | _ => false

/-- Whether an event is a register-readback diagnostic line. -/
def Event.isReadbackDiag : Event → Bool
  | .printf msg _ => msg.isReadbackDiag
  | _ => false

/-- The events with the register-readback diagnostic lines left out. -/
def dropReadbackDiags (out : List Event) : List Event :=
  out.filter (fun e => !e.isReadbackDiag)

/-- The five PMP register writes of `main`, in program order. -/
def pmpSetup : List (Csr × Nat) :=
  [(Csr.pmpaddr3, REGION3_ADDR), (Csr.pmpaddr2, REGION2_ADDR),
   (Csr.pmpaddr1, REGION1_ADDR), (Csr.pmpaddr0, REGION0_ADDR),
   (Csr.pmpcfg0, PMPCONFIG0)]

/-- The events before the first trap. -/
def beforeTrap (out : List Event) : List Event :=
  out.takeWhile (fun e => e != Event.trap)

/-- The store on which the first trap was taken: the store event right before
the first `trap` event, if there is one. -/
def trapSite (out : List Event) : Option (Nat × Nat) :=
  if Event.trap ∈ out then
    match (beforeTrap out).getLast? with
    | some (Event.store addr val) => some (addr, val)
    | _ => none
  else none

/-- The writes to `pmpaddr0..pmpaddr3` and `pmpcfg0` made before the first
trap, in order. -/
def pmpWritesBeforeTrap (out : List Event) : List (Csr × Nat) :=
  (csrWrites (beforeTrap out)).filter (fun w => w.1.isPmp)

/-! ## Top-of-Range matching

The rule by which the hardware assigns an address to a region is not part of
the program. It is taken as the specification states it: region `i` matches a
byte address `a` when `pmpaddr[i-1] <= a >> 2 < pmpaddr[i]`, with
`pmpaddr[-1] = 0`, and the lowest-numbered matching region decides. -/

/-- The address registers as the program sets them, `pmpaddr0..pmpaddr3`. -/
def regionAddrs : List Nat := [REGION0_ADDR, REGION1_ADDR, REGION2_ADDR, REGION3_ADDR]

/-- Modelled from the spec: the lower bound of Top-of-Range range `i`, a rule
of the hardware and not code of the repository: `pmpaddr[i-1]`, and `0` for
`i = 0`. -/
def torLow (pmpaddr : List Nat) (i : Nat) : Nat :=
  if i = 0 then 0 else pmpaddr.getD (i - 1) 0

/-- Modelled from the spec: encoded address `w` lies in Top-of-Range range
`i`, `pmpaddr[i-1] <= w < pmpaddr[i]`; a rule of the hardware and not code of
the repository. -/
def torRange (pmpaddr : List Nat) (i w : Nat) : Bool :=
  decide (torLow pmpaddr i ≤ w) && decide (w < pmpaddr.getD i 0)

/-- Modelled from the spec: region `i` matches byte address `a`, that is
`pmpaddr[i-1] <= a >> 2 < pmpaddr[i]`; a rule of the hardware and not code of
the repository. -/
def torMatches (pmpaddr : List Nat) (i a : Nat) : Bool :=
  torRange pmpaddr i (a >>> 2)

/-- Modelled from the spec: the lowest-numbered region matching byte address
`a`, if any, which is the one that decides; a rule of the hardware and not code
of the repository. -/
def governing (pmpaddr : List Nat) (a : Nat) : Option Nat :=
  (List.range pmpaddr.length).find? (fun i => torMatches pmpaddr i a)

/-! ## A reference hart

One concrete hart, used to run the program on: word-addressed RAM in
`[ramLo, ramHi)`, four PMP entries checked by the Top-of-Range rule on every
store, locked entries binding machine mode. A store outside RAM or denied by
PMP raises a store access fault (`mcause = 7`). The properties of the program
are stated for every hart; this one and its variants serve as instances. -/

/-- State of the reference hart. -/
structure Soc where
  mem : List (Nat × Nat)
  pmpaddr : List Nat
  pmpcfg0 : Nat
  mtvec : Nat
  mcause : Nat
  deriving DecidableEq, Repr

/-- The reference hart after reset: PMP entries off, memory at its default. -/
def Soc.reset : Soc :=
  { mem := [], pmpaddr := [0, 0, 0, 0], pmpcfg0 := 0, mtvec := 0, mcause := 0 }

/-- The content of the word at address `a`, `0` when never written. -/
def Soc.read (h : Soc) (a : Nat) : Nat := (h.mem.lookup a).getD 0

/-- PMP denies a machine-mode store to byte `a`: the lowest-numbered matching
entry in Top-of-Range mode is locked and lacks `W`. -/
def Soc.denies (h : Soc) (a : Nat) : Bool :=
  match (List.range h.pmpaddr.length).find?
      (fun i => cfgMode (cfgByte h.pmpcfg0 i) == 1 && torMatches h.pmpaddr i a) with
  | none => false
  | some i => hasBit (cfgByte h.pmpcfg0 i) L && !hasBit (cfgByte h.pmpcfg0 i) W

/-- Update of entry `i` of a list. -/
def setAt (xs : List Nat) (i v : Nat) : List Nat := xs.set i v

/-- The reference hart with RAM in `[ramLo, ramHi)`. -/
def socHart (ramLo ramHi : Nat) : Hart Soc where
  vector_table := ramLo
  store h a v :=
    if a < ramLo ∨ ramHi ≤ a then .trap { h with mcause := 7 }
    else if h.denies a || h.denies (a + 1) || h.denies (a + 2) || h.denies (a + 3) then
      .trap { h with mcause := 7 }
    else .done { h with mem := (a, u32 v) :: h.mem }
  load h a := h.read a
  csrw h reg v :=
    match reg with
    | .mtvec => { h with mtvec := v }
    | .mcause => { h with mcause := v }
    | .pmpaddr0 => { h with pmpaddr := setAt h.pmpaddr 0 v }
    | .pmpaddr1 => { h with pmpaddr := setAt h.pmpaddr 1 v }
    | .pmpaddr2 => { h with pmpaddr := setAt h.pmpaddr 2 v }
    | .pmpaddr3 => { h with pmpaddr := setAt h.pmpaddr 3 v }
    | .pmpcfg0 => { h with pmpcfg0 := u32 v }
  csrr h reg :=
    match reg with
    | .mtvec => h.mtvec
    | .mcause => h.mcause
    | .pmpaddr0 => h.pmpaddr.getD 0 0
    | .pmpaddr1 => h.pmpaddr.getD 1 0
    | .pmpaddr2 => h.pmpaddr.getD 2 0
    | .pmpaddr3 => h.pmpaddr.getD 3 0
    | .pmpcfg0 => h.pmpcfg0

/-- A board with RAM at `0x80000000`, 64 KiB: the test location is RAM. -/
def artyHart : Hart Soc := socHart 0x80000000 0x80010000

/-- A board on which the test location is read-only memory, its RAM being at
`0x08000000`: a store to the test location raises an access fault, a load of it
reads its content, `0`. -/
def readOnlyHart : Hart Soc := socHart 0x08000000 0x08010000

/-- A hart without PMP: as `artyHart`, but stores are never denied. -/
def noPmpHart : Hart Soc :=
  { artyHart with store := fun h a v => .done { h with mem := (a, u32 v) :: h.mem } }

/-- A hart on which stores retire without effect, as to a read-only location:
as `artyHart`, but memory never changes. -/
def romHart : Hart Soc :=
  { artyHart with store := fun h _ _ => .done h }

/-- The hart after the five PMP register writes of `main`, in program order. -/
def configured {σ : Type} (hw : Hart σ) (h : σ) : σ :=
  hw.csrw (hw.csrw (hw.csrw (hw.csrw (hw.csrw h Csr.pmpaddr3 REGION3_ADDR)
    Csr.pmpaddr2 REGION2_ADDR) Csr.pmpaddr1 REGION1_ADDR) Csr.pmpaddr0 REGION0_ADDR)
    Csr.pmpcfg0 PMPCONFIG0

/-- The two lines the handler prints, entered in state `t`. -/
def handlerLines {σ : Type} (hw : Hart σ) (t : State σ) : List Event :=
  [if deref hw t = DATA_VALUE_PMP_ENABLED then Event.printf Msg.unexpected_exception []
    else Event.printf Msg.exception_as_expected [MCAUSE_CODE (read_csr hw Csr.mcause t)],
   Event.printf Msg.now_exiting []]

/-! ## The trap handler -/

/-- The outcome of the handler in terms of what the target location holds. -/
theorem handler_outcome {σ : Type} (hw : Hart σ) (s : State σ) :
    (default_exception_handler hw s).1 =
      Outcome.exited (if deref hw s = DATA_VALUE_PMP_ENABLED then 0xFF else 0) := by
  unfold default_exception_handler
  by_cases h : deref hw s = DATA_VALUE_PMP_ENABLED <;> simp [h, printf]

/-- Claim C2. For every content of the target location when
`default_exception_handler` is entered and every prior value `rc` of
`return_code`, the handler does not return to its caller: it ends in `exit`,
with status `0xFF` when the target holds `0xEEEEEEEE` and `0` otherwise, and
`return_code` holds that status. -/
theorem handler_exits_by_target_content {σ : Type} (hw : Hart σ) (s : State σ) (rc : Nat) :
    (default_exception_handler hw { s with return_code := rc }).1 =
        Outcome.exited (if deref hw s = DATA_VALUE_PMP_ENABLED then 0xFF else 0) ∧
      (∀ value, (default_exception_handler hw { s with return_code := rc }).1 ≠
        Outcome.returned value) ∧
      (default_exception_handler hw { s with return_code := rc }).1.status =
        (if deref hw s = DATA_VALUE_PMP_ENABLED then 0xFF else 0) ∧
      (default_exception_handler hw { s with return_code := rc }).2.return_code =
        (if deref hw s = DATA_VALUE_PMP_ENABLED then 0xFF else 0) := by
  have hd : deref hw { s with return_code := rc } = deref hw s := rfl
  have h1 := handler_outcome hw { s with return_code := rc }
  rw [hd] at h1
  refine ⟨h1, ?_, ?_, ?_⟩
  · intro value hv
    rw [h1] at hv
    exact Outcome.noConfusion hv
  · rw [h1]; rfl
  · unfold default_exception_handler
    rw [hd]
    by_cases h : deref hw s = DATA_VALUE_PMP_ENABLED <;> simp [h, printf]

/-- Claim C3 on the board with read-only memory at the test location: the
initial write of `0xAAAAAAAA` traps, `default_exception_handler` is entered
with the target reading `0`, not `0xAAAAAAAA`, and it ends the process with
status `0`. -/
theorem handler_status_zero_without_sentinel :
    ∃ s : State Soc,
      assign readOnlyHart DATA_VALUE_NO_PROTECTION
          { (write_csr readOnlyHart Csr.mtvec readOnlyHart.vector_table (State.init Soc.reset)) with
            return_code := 1, memptr := RAM_LOCATION_FOR_TEST } = StoreResult.trap s ∧
        main readOnlyHart (State.init Soc.reset) = default_exception_handler readOnlyHart s ∧
        (default_exception_handler readOnlyHart s).1.status = 0 ∧
        deref readOnlyHart s = 0 ∧
        deref readOnlyHart s ≠ DATA_VALUE_NO_PROTECTION :=
  ⟨_, rfl, by decide, by decide, by decide, by decide⟩

/-! ## How `main` ends -/

/-- A store that traps leaves `trap` among the events. -/
theorem assign_trap_mem {σ : Type} (hw : Hart σ) (val : Nat) (s t : State σ)
    (h : assign hw val s = StoreResult.trap t) : Event.trap ∈ t.out := by
  unfold assign at h
  split at h
  · exact StoreResult.noConfusion h
  · injection h with h
    subst h
    simp

/-- The three ways `main` ends: it returns `0xFA`, it returns `0xFA17`, or a
store trapped and the run is the handler's from there on. -/
theorem main_cases {σ : Type} (hw : Hart σ) (s : State σ) :
    (main hw s).1 = Outcome.returned 0xFA ∨ (main hw s).1 = Outcome.returned 0xFA17 ∨
      ∃ t, main hw s = default_exception_handler hw t ∧ Event.trap ∈ t.out := by
  unfold main
  simp only []
  split
  · next t ht => exact Or.inr (Or.inr ⟨t, rfl, assign_trap_mem _ _ _ _ ht⟩)
  · split
    · split
      · next t ht => exact Or.inr (Or.inr ⟨t, rfl, assign_trap_mem _ _ _ _ ht⟩)
      · exact Or.inr (Or.inl rfl)
    · exact Or.inl rfl

/-- Claim C4. Whatever the hardware does, `main` never returns `0`: a value it
returns is `0xFA` or `0xFA17`; and when the process status is `0`, a store
trapped and the run ended in `default_exception_handler` calling `exit (0)`. -/
theorem main_never_returns_zero {σ : Type} (hw : Hart σ) (s : State σ) :
    (main hw s).1 ≠ Outcome.returned 0 ∧
      (∀ value, (main hw s).1 = Outcome.returned value → value = 0xFA ∨ value = 0xFA17) ∧
      ((main hw s).1.status = 0 →
        (main hw s).1 = Outcome.exited 0 ∧
          ∃ t, main hw s = default_exception_handler hw t ∧ Event.trap ∈ t.out) := by
  rcases main_cases hw s with h | h | ⟨t, ht, hmem⟩
  · rw [h]
    refine ⟨by decide, ?_, fun h0 => absurd h0 (by decide)⟩
    intro value hv
    injection hv with hv
    exact Or.inl hv.symm
  · rw [h]
    refine ⟨by decide, ?_, fun h0 => absurd h0 (by decide)⟩
    intro value hv
    injection hv with hv
    exact Or.inr hv.symm
  · have ho := handler_outcome hw t
    rw [← ht] at ho
    refine ⟨?_, ?_, ?_⟩
    · rw [ho]; exact fun hc => Outcome.noConfusion hc
    · intro value hv
      rw [ho] at hv
      exact Outcome.noConfusion hv
    · intro h0
      refine ⟨?_, t, ht, hmem⟩
      rw [ho] at h0 ⊢
      exact congrArg Outcome.exited h0

/-! ## The configuration block -/

/-- The events of the five PMP register writes. -/
theorem pmpSetup_events :
    pmpSetup.map (fun w => Event.csrw w.1 w.2) =
      [Event.csrw Csr.pmpaddr3 REGION3_ADDR, Event.csrw Csr.pmpaddr2 REGION2_ADDR,
       Event.csrw Csr.pmpaddr1 REGION1_ADDR, Event.csrw Csr.pmpaddr0 REGION0_ADDR,
       Event.csrw Csr.pmpcfg0 PMPCONFIG0] := rfl

/-- A readback check leaves the state as it was, up to one diagnostic line. -/
theorem readback_check_spec {σ : Type} (c : Prop) [Decidable c] (msg : Msg) (args : List Nat)
    (s : State σ) (hm : msg.isReadbackDiag = true) :
    ∃ l, (if c then printf msg args s else s) = { s with out := s.out ++ l } ∧
      dropReadbackDiags l = [] := by
  by_cases hc : c
  · exact ⟨[Event.printf msg args], by simp [hc, printf],
      by simp [dropReadbackDiags, Event.isReadbackDiag, hm]⟩
  · exact ⟨[], by simp [hc], rfl⟩

/-- Leaving out readback diagnostics distributes over concatenation. -/
theorem dropReadbackDiags_append (a b : List Event) :
    dropReadbackDiags (a ++ b) = dropReadbackDiags a ++ dropReadbackDiags b := by
  simp [dropReadbackDiags]

/-- The configuration block writes the five registers, whatever is read back:
it leaves the hart in `configured`, the globals as they were, and adds the five
writes plus, possibly, readback diagnostics. -/
theorem configure_regions_spec {σ : Type} (hw : Hart σ) (s : State σ) :
    ∃ d, configure_regions hw s = { s with hart := configured hw s.hart, out := s.out ++ d } ∧
      dropReadbackDiags d = pmpSetup.map (fun w => Event.csrw w.1 w.2) ∧
      ∃ d1, d = Event.csrw Csr.pmpaddr3 REGION3_ADDR :: d1 := by
  unfold configure_regions
  lift_lets
  extract_lets s1 s2 s3 s4 region0 s5 region1 s6 region2 s7 region3 s8 s9 cfg
  obtain ⟨l0, e5, h0⟩ := readback_check_spec (region0 ≠ REGION0_ADDR) Msg.region0_not_ok
    [REGION0_ADDR, region0] s4 rfl
  obtain ⟨l1, e6, h1⟩ := readback_check_spec (region1 ≠ REGION1_ADDR) Msg.region1_not_ok
    [REGION1_ADDR, region1] s5 rfl
  obtain ⟨l2, e7, h2⟩ := readback_check_spec (region2 ≠ REGION2_ADDR) Msg.region2_not_ok
    [REGION2_ADDR, region2] s6 rfl
  obtain ⟨l3, e8, h3⟩ := readback_check_spec (region3 ≠ REGION3_ADDR) Msg.region3_not_ok
    [REGION3_ADDR, region2] s7 rfl
  obtain ⟨l4, e9, h4⟩ := readback_check_spec (cfg ≠ PMPCONFIG0) Msg.pmpconfig0_not_ok
    [PMPCONFIG0, cfg] s9 rfl
  refine ⟨Event.csrw Csr.pmpaddr3 REGION3_ADDR :: Event.csrw Csr.pmpaddr2 REGION2_ADDR ::
    Event.csrw Csr.pmpaddr1 REGION1_ADDR :: Event.csrw Csr.pmpaddr0 REGION0_ADDR ::
    (l0 ++ l1 ++ l2 ++ l3 ++ Event.csrw Csr.pmpcfg0 PMPCONFIG0 :: l4), ?_, ?_, _, rfl⟩
  · rw [e9]
    have e9' : s9 = write_csr hw Csr.pmpcfg0 PMPCONFIG0 s8 := rfl
    have e8' : s8 = { s7 with out := s7.out ++ l3 } := e8
    have e7' : s7 = { s6 with out := s6.out ++ l2 } := e7
    have e6' : s6 = { s5 with out := s5.out ++ l1 } := e6
    have e5' : s5 = { s4 with out := s4.out ++ l0 } := e5
    have e4' : s4 = write_csr hw Csr.pmpaddr0 REGION0_ADDR s3 := rfl
    have e3' : s3 = write_csr hw Csr.pmpaddr1 REGION1_ADDR s2 := rfl
    have e2' : s2 = write_csr hw Csr.pmpaddr2 REGION2_ADDR s1 := rfl
    have e1' : s1 = write_csr hw Csr.pmpaddr3 REGION3_ADDR s := rfl
    rw [e9', e8', e7', e6', e5', e4', e3', e2', e1']
    simp [write_csr, configured]
  · have hd : ∀ reg val, dropReadbackDiags [Event.csrw reg val] = [Event.csrw reg val] :=
      fun _ _ => rfl
    have hc : ∀ (e : Event) (l : List Event), e :: l = [e] ++ l := fun _ _ => rfl
    rw [hc, dropReadbackDiags_append, hc (Event.csrw Csr.pmpaddr2 _), dropReadbackDiags_append,
      hc (Event.csrw Csr.pmpaddr1 _), dropReadbackDiags_append,
      hc (Event.csrw Csr.pmpaddr0 _), dropReadbackDiags_append,
      dropReadbackDiags_append, dropReadbackDiags_append, dropReadbackDiags_append,
      dropReadbackDiags_append, hc (Event.csrw Csr.pmpcfg0 _), dropReadbackDiags_append,
      h0, h1, h2, h3, h4]
    simp only [hd]
    rfl

/-- The state the handler leaves: the hart and `memptr` untouched, two lines
printed. -/
theorem handler_state {σ : Type} (hw : Hart σ) (t : State σ) :
    (default_exception_handler hw t).2 =
      { t with
        return_code := if deref hw t = DATA_VALUE_PMP_ENABLED then 0xFF else 0
        out := t.out ++ handlerLines hw t } := by
  unfold default_exception_handler handlerLines
  by_cases h : deref hw t = DATA_VALUE_PMP_ENABLED <;> simp [h, printf, read_csr]

/-- The handler's lines hold no CSR write, no store and no readback
diagnostic. -/
theorem handlerLines_views {σ : Type} (hw : Hart σ) (t : State σ) :
    csrWrites (handlerLines hw t) = [] ∧ stores (handlerLines hw t) = [] ∧
      dropReadbackDiags (handlerLines hw t) = handlerLines hw t := by
  unfold handlerLines
  refine ⟨?_, ?_, ?_⟩ <;> split_ifs <;> rfl

/-- The handler adds two lines to the events: no CSR write, no store, no
readback diagnostic and no trap. -/
theorem handler_lines {σ : Type} (hw : Hart σ) (t : State σ) :
    ∃ l, (default_exception_handler hw t).2.out = t.out ++ l ∧
      csrWrites l = [] ∧ stores l = [] ∧ dropReadbackDiags l = l := by
  rw [handler_state]
  exact ⟨_, rfl, handlerLines_views hw t⟩

/-- A run in which the initial write traps is the handler's from there on. -/
theorem main_initial_trap {σ : Type} (hw : Hart σ) (h h1 : σ)
    (hst : hw.store (hw.csrw h Csr.mtvec hw.vector_table) RAM_LOCATION_FOR_TEST
      DATA_VALUE_NO_PROTECTION = StoreResult.trap h1) :
    main hw (State.init h) = default_exception_handler hw
      { hart := h1, memptr := RAM_LOCATION_FOR_TEST, return_code := 1,
        out := [Event.csrw Csr.mtvec hw.vector_table,
          Event.store RAM_LOCATION_FOR_TEST DATA_VALUE_NO_PROTECTION, Event.trap] } := by
  unfold main
  simp [assign, write_csr, State.init, hst]

/-- A run in which the initial write retires and does not read back. -/
theorem main_check_failed {σ : Type} (hw : Hart σ) (h h1 : σ)
    (hst : hw.store (hw.csrw h Csr.mtvec hw.vector_table) RAM_LOCATION_FOR_TEST
      DATA_VALUE_NO_PROTECTION = StoreResult.done h1)
    (hv : u32 (hw.load h1 RAM_LOCATION_FOR_TEST) ≠ DATA_VALUE_NO_PROTECTION) :
    main hw (State.init h) = (Outcome.returned 0xFA,
      { hart := h1, memptr := RAM_LOCATION_FOR_TEST, return_code := 1,
        out := [Event.csrw Csr.mtvec hw.vector_table,
          Event.store RAM_LOCATION_FOR_TEST DATA_VALUE_NO_PROTECTION,
          Event.printf Msg.initial_write_failed []] }) := by
  unfold main
  simp [assign, write_csr, State.init, hst, deref, hv, printf]

/-- A run in which the initial write retires and reads back, given the events
`d` of its configuration block: the protected write is attempted, and the run
ends in the handler or by `main` returning `0xFA17`, as that store traps or
retires. -/
theorem main_check_passed_with {σ : Type} (hw : Hart σ) (h h1 : σ) (d : List Event)
    (hst : hw.store (hw.csrw h Csr.mtvec hw.vector_table) RAM_LOCATION_FOR_TEST
      DATA_VALUE_NO_PROTECTION = StoreResult.done h1)
    (hv : u32 (hw.load h1 RAM_LOCATION_FOR_TEST) = DATA_VALUE_NO_PROTECTION)
    (hd : configure_regions hw
        { hart := h1, memptr := RAM_LOCATION_FOR_TEST, return_code := 1,
          out := [Event.csrw Csr.mtvec hw.vector_table,
            Event.store RAM_LOCATION_FOR_TEST DATA_VALUE_NO_PROTECTION,
            Event.printf Msg.initial_write_passes [RAM_LOCATION_FOR_TEST]] } =
      { hart := configured hw h1, memptr := RAM_LOCATION_FOR_TEST, return_code := 1,
        out := [Event.csrw Csr.mtvec hw.vector_table,
          Event.store RAM_LOCATION_FOR_TEST DATA_VALUE_NO_PROTECTION,
          Event.printf Msg.initial_write_passes [RAM_LOCATION_FOR_TEST]] ++ d }) :
    (∃ h2, hw.store (configured hw h1) RAM_LOCATION_FOR_TEST DATA_VALUE_PMP_ENABLED =
          StoreResult.trap h2 ∧
        main hw (State.init h) = default_exception_handler hw
          { hart := h2, memptr := RAM_LOCATION_FOR_TEST, return_code := 1,
            out := [Event.csrw Csr.mtvec hw.vector_table,
              Event.store RAM_LOCATION_FOR_TEST DATA_VALUE_NO_PROTECTION,
              Event.printf Msg.initial_write_passes [RAM_LOCATION_FOR_TEST]] ++ d ++
              [Event.store RAM_LOCATION_FOR_TEST DATA_VALUE_PMP_ENABLED, Event.trap] }) ∨
      (∃ h2, hw.store (configured hw h1) RAM_LOCATION_FOR_TEST DATA_VALUE_PMP_ENABLED =
          StoreResult.done h2 ∧
        main hw (State.init h) = (Outcome.returned 0xFA17,
          { hart := h2, memptr := RAM_LOCATION_FOR_TEST, return_code := 0xFA17,
            out := [Event.csrw Csr.mtvec hw.vector_table,
              Event.store RAM_LOCATION_FOR_TEST DATA_VALUE_NO_PROTECTION,
              Event.printf Msg.initial_write_passes [RAM_LOCATION_FOR_TEST]] ++ d ++
              [Event.store RAM_LOCATION_FOR_TEST DATA_VALUE_PMP_ENABLED,
                Event.printf Msg.protection_not_correct []] })) := by
  cases h2 : hw.store (configured hw h1) RAM_LOCATION_FOR_TEST DATA_VALUE_PMP_ENABLED with
  | trap h2' =>
    refine Or.inl ⟨h2', rfl, ?_⟩
    unfold main
    simp only [assign, write_csr, State.init, hst, deref, hv, printf, List.nil_append,
      if_true, List.cons_append, List.singleton_append] at hd ⊢
    rw [hd]
    simp [h2]
  | done h2' =>
    refine Or.inr ⟨h2', rfl, ?_⟩
    unfold main
    simp only [assign, write_csr, State.init, hst, deref, hv, printf, List.nil_append,
      if_true, List.cons_append, List.singleton_append] at hd ⊢
    rw [hd]
    simp [h2]

/-- A run in which the initial write retires and reads back: the five PMP
registers are written, the protected write is attempted, and the run ends in
the handler or by `main` returning `0xFA17`, as that store traps or retires. -/
theorem main_check_passed {σ : Type} (hw : Hart σ) (h h1 : σ)
    (hst : hw.store (hw.csrw h Csr.mtvec hw.vector_table) RAM_LOCATION_FOR_TEST
      DATA_VALUE_NO_PROTECTION = StoreResult.done h1)
    (hv : u32 (hw.load h1 RAM_LOCATION_FOR_TEST) = DATA_VALUE_NO_PROTECTION) :
    ∃ d, dropReadbackDiags d = pmpSetup.map (fun w => Event.csrw w.1 w.2) ∧
      (∃ d1, d = Event.csrw Csr.pmpaddr3 REGION3_ADDR :: d1) ∧
      ((∃ h2, hw.store (configured hw h1) RAM_LOCATION_FOR_TEST DATA_VALUE_PMP_ENABLED =
            StoreResult.trap h2 ∧
          main hw (State.init h) = default_exception_handler hw
            { hart := h2, memptr := RAM_LOCATION_FOR_TEST, return_code := 1,
              out := [Event.csrw Csr.mtvec hw.vector_table,
                Event.store RAM_LOCATION_FOR_TEST DATA_VALUE_NO_PROTECTION,
                Event.printf Msg.initial_write_passes [RAM_LOCATION_FOR_TEST]] ++ d ++
                [Event.store RAM_LOCATION_FOR_TEST DATA_VALUE_PMP_ENABLED, Event.trap] }) ∨
        (∃ h2, hw.store (configured hw h1) RAM_LOCATION_FOR_TEST DATA_VALUE_PMP_ENABLED =
            StoreResult.done h2 ∧
          main hw (State.init h) = (Outcome.returned 0xFA17,
            { hart := h2, memptr := RAM_LOCATION_FOR_TEST, return_code := 0xFA17,
              out := [Event.csrw Csr.mtvec hw.vector_table,
                Event.store RAM_LOCATION_FOR_TEST DATA_VALUE_NO_PROTECTION,
                Event.printf Msg.initial_write_passes [RAM_LOCATION_FOR_TEST]] ++ d ++
                [Event.store RAM_LOCATION_FOR_TEST DATA_VALUE_PMP_ENABLED,
                  Event.printf Msg.protection_not_correct []] }))) := by
  obtain ⟨d, hd, hdrop, hhead⟩ := configure_regions_spec hw
    { hart := h1, memptr := RAM_LOCATION_FOR_TEST, return_code := 1,
      out := [Event.csrw Csr.mtvec hw.vector_table,
        Event.store RAM_LOCATION_FOR_TEST DATA_VALUE_NO_PROTECTION,
        Event.printf Msg.initial_write_passes [RAM_LOCATION_FOR_TEST]] }
  exact ⟨d, hdrop, hhead, main_check_passed_with hw h h1 d hst hv hd⟩

/-! ## Views of the events of a run -/

/-- The CSR writes of a concatenation. -/
theorem csrWrites_append (a b : List Event) :
    csrWrites (a ++ b) = csrWrites a ++ csrWrites b := by
  induction a with
  | nil => rfl
  | cons e a ih => cases e <;> simp [csrWrites, ih]

/-- The stores of a concatenation. -/
theorem stores_append (a b : List Event) : stores (a ++ b) = stores a ++ stores b := by
  induction a with
  | nil => rfl
  | cons e a ih => cases e <;> simp [stores, ih]

/-- Readback diagnostics are no CSR writes. -/
theorem csrWrites_dropReadbackDiags (d : List Event) :
    csrWrites (dropReadbackDiags d) = csrWrites d := by
  induction d with
  | nil => rfl
  | cons e d ih =>
    cases e with
    | printf msg args =>
      by_cases hm : msg.isReadbackDiag = true
      · simpa [dropReadbackDiags, Event.isReadbackDiag, hm, csrWrites] using ih
      · simpa [dropReadbackDiags, Event.isReadbackDiag, hm, csrWrites] using ih
    | csrw reg val => simpa [dropReadbackDiags, Event.isReadbackDiag, csrWrites] using ih
    | store addr val => simpa [dropReadbackDiags, Event.isReadbackDiag, csrWrites] using ih
    | trap => simpa [dropReadbackDiags, Event.isReadbackDiag, csrWrites] using ih

/-- Readback diagnostics are no stores. -/
theorem stores_dropReadbackDiags (d : List Event) :
    stores (dropReadbackDiags d) = stores d := by
  induction d with
  | nil => rfl
  | cons e d ih =>
    cases e with
    | printf msg args =>
      by_cases hm : msg.isReadbackDiag = true
      · simpa [dropReadbackDiags, Event.isReadbackDiag, hm, stores] using ih
      · simpa [dropReadbackDiags, Event.isReadbackDiag, hm, stores] using ih
    | csrw reg val => simpa [dropReadbackDiags, Event.isReadbackDiag, stores] using ih
    | store addr val => simpa [dropReadbackDiags, Event.isReadbackDiag, stores] using ih
    | trap => simpa [dropReadbackDiags, Event.isReadbackDiag, stores] using ih

/-- A trap among events is still there with readback diagnostics left out. -/
theorem trap_mem_dropReadbackDiags (d : List Event) (h : Event.trap ∈ d) :
    Event.trap ∈ dropReadbackDiags d := by
  simp [dropReadbackDiags, Event.isReadbackDiag, h]

/-- The events of the configuration block hold the five PMP writes, no store
and no trap. -/
theorem config_events {d : List Event}
    (hd : dropReadbackDiags d = pmpSetup.map (fun w => Event.csrw w.1 w.2)) :
    csrWrites d = pmpSetup ∧ stores d = [] ∧ Event.trap ∉ d := by
  refine ⟨?_, ?_, ?_⟩
  · rw [← csrWrites_dropReadbackDiags, hd]; rfl
  · rw [← stores_dropReadbackDiags, hd]; rfl
  · intro h
    have h2 := trap_mem_dropReadbackDiags d h
    rw [hd] at h2
    simp [pmpSetup] at h2

/-- The events before the first trap, when the trap's position is known. -/
theorem beforeTrap_append (l r : List Event) (h : Event.trap ∉ l) :
    beforeTrap (l ++ Event.trap :: r) = l := by
  induction l with
  | nil => simp [beforeTrap]
  | cons e l ih =>
    have he : e ≠ Event.trap := fun hc => h (by simp [hc])
    have hl : Event.trap ∉ l := fun hc => h (by simp [hc])
    have ih2 := ih hl
    have hb : (e != Event.trap) = true := by simp [he]
    unfold beforeTrap at ih2 ⊢
    rw [List.cons_append, List.takeWhile_cons, hb, if_pos rfl, ih2]

/-- The events of a run whose initial write check passed: the prologue, the
configuration block, the protected store, and what follows it. -/
theorem main_out_check_passed {σ : Type} (hw : Hart σ) (h h1 : σ)
    (hst : hw.store (hw.csrw h Csr.mtvec hw.vector_table) RAM_LOCATION_FOR_TEST
      DATA_VALUE_NO_PROTECTION = StoreResult.done h1)
    (hv : u32 (hw.load h1 RAM_LOCATION_FOR_TEST) = DATA_VALUE_NO_PROTECTION) :
    ∃ d rest, dropReadbackDiags d = pmpSetup.map (fun w => Event.csrw w.1 w.2) ∧
      (∃ d1, d = Event.csrw Csr.pmpaddr3 REGION3_ADDR :: d1) ∧
      csrWrites rest = [] ∧ stores rest = [] ∧ dropReadbackDiags rest = rest ∧
      (main hw (State.init h)).2.out =
        [Event.csrw Csr.mtvec hw.vector_table,
          Event.store RAM_LOCATION_FOR_TEST DATA_VALUE_NO_PROTECTION,
          Event.printf Msg.initial_write_passes [RAM_LOCATION_FOR_TEST]] ++ d ++
          Event.store RAM_LOCATION_FOR_TEST DATA_VALUE_PMP_ENABLED :: rest := by
  obtain ⟨d, hdrop, hhead, hrun⟩ := main_check_passed hw h h1 hst hv
  rcases hrun with ⟨h2, _, hm⟩ | ⟨h2, _, hm⟩
  · obtain ⟨l, hl, hc, hs, hdl⟩ := handler_lines hw
      { hart := h2, memptr := RAM_LOCATION_FOR_TEST, return_code := 1,
        out := [Event.csrw Csr.mtvec hw.vector_table,
          Event.store RAM_LOCATION_FOR_TEST DATA_VALUE_NO_PROTECTION,
          Event.printf Msg.initial_write_passes [RAM_LOCATION_FOR_TEST]] ++ d ++
          [Event.store RAM_LOCATION_FOR_TEST DATA_VALUE_PMP_ENABLED, Event.trap] }
    refine ⟨d, Event.trap :: l, hdrop, hhead, ?_, ?_, ?_, ?_⟩
    · simpa [csrWrites] using hc
    · simpa [stores] using hs
    · have ht : dropReadbackDiags [Event.trap] = [Event.trap] := rfl
      have hcons : Event.trap :: l = [Event.trap] ++ l := rfl
      rw [hcons, dropReadbackDiags_append, ht, hdl]
    · rw [hm, hl]
      simp
  · rw [hm]
    exact ⟨d, [Event.printf Msg.protection_not_correct []], hdrop, hhead, rfl, rfl, rfl, by simp⟩

/-! ## The initial write check -/

/-- Claim C5. Let the initial write retire and `v` be what the target location
reads back. If `v` differs from `0xAAAAAAAA`, `main` returns `0xFA` at once: the
events are the `mtvec` write, the initial store and one message, so none of
`pmpaddr0..pmpaddr3`, `pmpcfg0` is written and no store of `0xEEEEEEEE` is
made. If `v` is `0xAAAAAAAA`, `main` does not return `0xFA`: the next event is
the write of `pmpaddr3`, all five PMP registers are written and the protected
store is made. -/
theorem initial_readback_decides {σ : Type} (hw : Hart σ) (h h1 : σ)
    (hst : hw.store (hw.csrw h Csr.mtvec hw.vector_table) RAM_LOCATION_FOR_TEST
      DATA_VALUE_NO_PROTECTION = StoreResult.done h1) :
    (u32 (hw.load h1 RAM_LOCATION_FOR_TEST) ≠ DATA_VALUE_NO_PROTECTION →
        main hw (State.init h) = (Outcome.returned 0xFA,
          { hart := h1, memptr := RAM_LOCATION_FOR_TEST, return_code := 1,
            out := [Event.csrw Csr.mtvec hw.vector_table,
              Event.store RAM_LOCATION_FOR_TEST DATA_VALUE_NO_PROTECTION,
              Event.printf Msg.initial_write_failed []] }) ∧
          (csrWrites (main hw (State.init h)).2.out).filter (fun w => w.1.isPmp) = [] ∧
          (RAM_LOCATION_FOR_TEST, DATA_VALUE_PMP_ENABLED) ∉
            stores (main hw (State.init h)).2.out) ∧
      (u32 (hw.load h1 RAM_LOCATION_FOR_TEST) = DATA_VALUE_NO_PROTECTION →
        (main hw (State.init h)).1 ≠ Outcome.returned 0xFA ∧
          [Event.csrw Csr.mtvec hw.vector_table,
            Event.store RAM_LOCATION_FOR_TEST DATA_VALUE_NO_PROTECTION,
            Event.printf Msg.initial_write_passes [RAM_LOCATION_FOR_TEST],
            Event.csrw Csr.pmpaddr3 REGION3_ADDR] <+: (main hw (State.init h)).2.out ∧
          (csrWrites (main hw (State.init h)).2.out).filter (fun w => w.1.isPmp) = pmpSetup ∧
          (RAM_LOCATION_FOR_TEST, DATA_VALUE_PMP_ENABLED) ∈
            stores (main hw (State.init h)).2.out) := by
  constructor
  · intro hv
    have hm := main_check_failed hw h h1 hst hv
    refine ⟨hm, ?_, ?_⟩
    · rw [hm]; rfl
    · rw [hm]
      simp [stores, DATA_VALUE_NO_PROTECTION, DATA_VALUE_PMP_ENABLED]
  · intro hv
    obtain ⟨d, rest, hdrop, ⟨d1, hd1⟩, hcr, hsr, _, hout⟩ := main_out_check_passed hw h h1 hst hv
    obtain ⟨hcd, hsd, _⟩ := config_events hdrop
    refine ⟨?_, ?_, ?_, ?_⟩
    · obtain ⟨_, _, _, hrun⟩ := main_check_passed hw h h1 hst hv
      rcases hrun with ⟨h2, _, hm⟩ | ⟨h2, _, hm⟩
      · rw [hm, handler_outcome]
        exact fun hc => Outcome.noConfusion hc
      · rw [hm]
        intro hc
        injection hc with hc
        exact absurd hc (by decide)
    · rw [hout, hd1]
      exact ⟨d1 ++ Event.store RAM_LOCATION_FOR_TEST DATA_VALUE_PMP_ENABLED :: rest, by simp⟩
    · rw [hout, csrWrites_append, csrWrites_append, hcd]
      simp only [csrWrites, hcr]
      rfl
    · rw [hout, stores_append, stores_append, hsd]
      simp [stores]

/-- Claim C5 at work: on the hart whose stores have no effect the run returns
`0xFA` after three events; on the reference board the run goes on to write
`pmpaddr3`. -/
theorem initial_readback_decides_witness :
    main romHart (State.init Soc.reset) = (Outcome.returned 0xFA,
        { hart := { Soc.reset with mtvec := 0x80000000 },
          memptr := RAM_LOCATION_FOR_TEST, return_code := 1,
          out := [Event.csrw Csr.mtvec 0x80000000,
            Event.store RAM_LOCATION_FOR_TEST DATA_VALUE_NO_PROTECTION,
            Event.printf Msg.initial_write_failed []] }) ∧
      [Event.csrw Csr.mtvec 0x80000000,
        Event.store RAM_LOCATION_FOR_TEST DATA_VALUE_NO_PROTECTION,
        Event.printf Msg.initial_write_passes [RAM_LOCATION_FOR_TEST],
        Event.csrw Csr.pmpaddr3 REGION3_ADDR] <+: (main artyHart (State.init Soc.reset)).2.out :=
  ⟨((initial_readback_decides romHart Soc.reset
      { Soc.reset with mtvec := 0x80000000 } rfl).1 (by decide)).1,
   ((initial_readback_decides artyHart Soc.reset
      { Soc.reset with mtvec := 0x80000000,
                       mem := [(RAM_LOCATION_FOR_TEST, DATA_VALUE_NO_PROTECTION)] }
      rfl).2 (by decide)).2.1⟩

/-! ## Register readback -/

/-- Claim C7. In every run in which the protected store of `0xEEEEEEEE` is made
and no trap is taken, `main` sets `return_code` to `0xFA17` and returns
`0xFA17`, which is neither `0`, nor the setup-failure code `0xFA`, nor the
handler's failure code `0xFF`. -/
theorem not_enforced_returns_fa17 {σ : Type} (hw : Hart σ) (h : σ)
    (hstore : (RAM_LOCATION_FOR_TEST, DATA_VALUE_PMP_ENABLED) ∈
      stores (main hw (State.init h)).2.out)
    (hnotrap : Event.trap ∉ (main hw (State.init h)).2.out) :
    (main hw (State.init h)).1 = Outcome.returned 0xFA17 ∧
      (main hw (State.init h)).2.return_code = 0xFA17 ∧
      (main hw (State.init h)).1.status ≠ 0 ∧
      (main hw (State.init h)).1.status ≠ 0xFA ∧
      (main hw (State.init h)).1.status ≠ 0xFF := by
  have key : (main hw (State.init h)).1 = Outcome.returned 0xFA17 ∧
      (main hw (State.init h)).2.return_code = 0xFA17 := by
    cases hst : hw.store (hw.csrw h Csr.mtvec hw.vector_table) RAM_LOCATION_FOR_TEST
        DATA_VALUE_NO_PROTECTION with
    | trap h1 =>
      exfalso
      apply hnotrap
      rw [main_initial_trap hw h h1 hst, handler_state]
      simp
    | done h1 =>
      by_cases hv : u32 (hw.load h1 RAM_LOCATION_FOR_TEST) = DATA_VALUE_NO_PROTECTION
      · obtain ⟨d, _, _, hrun⟩ := main_check_passed hw h h1 hst hv
        rcases hrun with ⟨h2, _, hm⟩ | ⟨h2, _, hm⟩
        · exfalso
          apply hnotrap
          rw [hm, handler_state]
          simp
        · rw [hm]
          exact ⟨rfl, rfl⟩
      · exfalso
        rw [main_check_failed hw h h1 hst hv] at hstore
        simp [stores, DATA_VALUE_NO_PROTECTION, DATA_VALUE_PMP_ENABLED] at hstore
  refine ⟨key.1, key.2, ?_, ?_, ?_⟩ <;> rw [key.1] <;> decide

/-- Claim C7 at work on the hart without PMP: the protected store retires and
`main` returns `0xFA17`. -/
theorem not_enforced_returns_fa17_witness :
    (RAM_LOCATION_FOR_TEST, DATA_VALUE_PMP_ENABLED) ∈
        stores (main noPmpHart (State.init Soc.reset)).2.out ∧
      Event.trap ∉ (main noPmpHart (State.init Soc.reset)).2.out ∧
      (main noPmpHart (State.init Soc.reset)).1 = Outcome.returned 0xFA17 ∧
      (main noPmpHart (State.init Soc.reset)).2.return_code = 0xFA17 :=
  ⟨by decide, by decide,
   (not_enforced_returns_fa17 noPmpHart Soc.reset (by decide) (by decide)).1,
   (not_enforced_returns_fa17 noPmpHart Soc.reset (by decide) (by decide)).2.1⟩

/-! ## Exit status `0` -/

/-- When the initial write retires, exit status `0` does mean that the trap was
taken on the protected write, after the five PMP registers were written. -/
theorem status_zero_after_retired_initial_write {σ : Type} (hw : Hart σ) (h h1 : σ)
    (hst : hw.store (hw.csrw h Csr.mtvec hw.vector_table) RAM_LOCATION_FOR_TEST
      DATA_VALUE_NO_PROTECTION = StoreResult.done h1)
    (h0 : (main hw (State.init h)).1.status = 0) :
    trapSite (main hw (State.init h)).2.out =
        some (RAM_LOCATION_FOR_TEST, DATA_VALUE_PMP_ENABLED) ∧
      pmpWritesBeforeTrap (main hw (State.init h)).2.out = pmpSetup := by
  by_cases hv : u32 (hw.load h1 RAM_LOCATION_FOR_TEST) = DATA_VALUE_NO_PROTECTION
  · obtain ⟨d, hdrop, _, hrun⟩ := main_check_passed hw h h1 hst hv
    obtain ⟨hcd, _, hnt⟩ := config_events hdrop
    rcases hrun with ⟨h2, _, hm⟩ | ⟨h2, _, hm⟩
    · have hout : (main hw (State.init h)).2.out =
          ([Event.csrw Csr.mtvec hw.vector_table,
            Event.store RAM_LOCATION_FOR_TEST DATA_VALUE_NO_PROTECTION,
            Event.printf Msg.initial_write_passes [RAM_LOCATION_FOR_TEST]] ++ d ++
            [Event.store RAM_LOCATION_FOR_TEST DATA_VALUE_PMP_ENABLED]) ++
          Event.trap :: handlerLines hw
            { hart := h2, memptr := RAM_LOCATION_FOR_TEST, return_code := 1,
              out := [Event.csrw Csr.mtvec hw.vector_table,
                Event.store RAM_LOCATION_FOR_TEST DATA_VALUE_NO_PROTECTION,
                Event.printf Msg.initial_write_passes [RAM_LOCATION_FOR_TEST]] ++ d ++
                [Event.store RAM_LOCATION_FOR_TEST DATA_VALUE_PMP_ENABLED, Event.trap] } := by
        rw [hm, handler_state]
        simp
      have hb := beforeTrap_append
        ([Event.csrw Csr.mtvec hw.vector_table,
          Event.store RAM_LOCATION_FOR_TEST DATA_VALUE_NO_PROTECTION,
          Event.printf Msg.initial_write_passes [RAM_LOCATION_FOR_TEST]] ++ d ++
          [Event.store RAM_LOCATION_FOR_TEST DATA_VALUE_PMP_ENABLED])
        (handlerLines hw
          { hart := h2, memptr := RAM_LOCATION_FOR_TEST, return_code := 1,
            out := [Event.csrw Csr.mtvec hw.vector_table,
              Event.store RAM_LOCATION_FOR_TEST DATA_VALUE_NO_PROTECTION,
              Event.printf Msg.initial_write_passes [RAM_LOCATION_FOR_TEST]] ++ d ++
              [Event.store RAM_LOCATION_FOR_TEST DATA_VALUE_PMP_ENABLED, Event.trap] })
        (by simp [hnt])
      constructor
      · unfold trapSite
        rw [hout, hb, if_pos (by simp), List.getLast?_concat]
      · unfold pmpWritesBeforeTrap
        rw [hout, hb]
        simp only [csrWrites_append, hcd]
        rfl
    · rw [hm] at h0
      have h0' : (0xFA17 : Nat) = 0 := h0
      exact absurd h0' (by decide)
  · rw [main_check_failed hw h h1 hst hv] at h0
    have h0' : (0xFA : Nat) = 0 := h0
    exact absurd h0' (by decide)

/-- The reference board is such a run: the initial write retires, the
protected write traps and the status is `0`. -/
theorem status_zero_after_retired_initial_write_witness :
    (main artyHart (State.init Soc.reset)).1.status = 0 ∧
      trapSite (main artyHart (State.init Soc.reset)).2.out =
        some (RAM_LOCATION_FOR_TEST, DATA_VALUE_PMP_ENABLED) ∧
      pmpWritesBeforeTrap (main artyHart (State.init Soc.reset)).2.out = pmpSetup :=
  ⟨by decide,
   status_zero_after_retired_initial_write artyHart Soc.reset
     { Soc.reset with mtvec := 0x80000000,
                      mem := [(RAM_LOCATION_FOR_TEST, DATA_VALUE_NO_PROTECTION)] }
     rfl (by decide)⟩

/-- On the protected-write path status `0` does go with the pre-protection
sentinel: when the initial write retires and reads back, the protected write
traps, and the target location reads at handler entry what it read at the
check, the handler is entered with the target holding `0xAAAAAAAA` and the
process ends with status `0`. -/
theorem handler_target_on_protected_write {σ : Type} (hw : Hart σ) (h h1 h2 : σ)
    (hst : hw.store (hw.csrw h Csr.mtvec hw.vector_table) RAM_LOCATION_FOR_TEST
      DATA_VALUE_NO_PROTECTION = StoreResult.done h1)
    (hv : u32 (hw.load h1 RAM_LOCATION_FOR_TEST) = DATA_VALUE_NO_PROTECTION)
    (htrap : hw.store (configured hw h1) RAM_LOCATION_FOR_TEST DATA_VALUE_PMP_ENABLED =
      StoreResult.trap h2)
    (hkeep : u32 (hw.load h2 RAM_LOCATION_FOR_TEST) = u32 (hw.load h1 RAM_LOCATION_FOR_TEST)) :
    ∃ t, main hw (State.init h) = default_exception_handler hw t ∧
      Event.trap ∈ t.out ∧
      deref hw t = DATA_VALUE_NO_PROTECTION ∧
      (main hw (State.init h)).1 = Outcome.exited 0 := by
  obtain ⟨d, _, _, hrun⟩ := main_check_passed hw h h1 hst hv
  rcases hrun with ⟨h2a, hs, hm⟩ | ⟨h2a, hs, _⟩
  · have e : StoreResult.trap h2a = StoreResult.trap h2 := hs.symm.trans htrap
    injection e with e
    subst e
    have hd : deref hw
        { hart := h2a, memptr := RAM_LOCATION_FOR_TEST, return_code := 1,
          out := [Event.csrw Csr.mtvec hw.vector_table,
            Event.store RAM_LOCATION_FOR_TEST DATA_VALUE_NO_PROTECTION,
            Event.printf Msg.initial_write_passes [RAM_LOCATION_FOR_TEST]] ++ d ++
            [Event.store RAM_LOCATION_FOR_TEST DATA_VALUE_PMP_ENABLED, Event.trap] } =
        DATA_VALUE_NO_PROTECTION := hkeep.trans hv
    refine ⟨_, hm, by simp, hd, ?_⟩
    rw [hm, handler_outcome, hd, if_neg (by decide)]
  · have e : StoreResult.done h2a = StoreResult.trap h2 := hs.symm.trans htrap
    exact StoreResult.noConfusion e

/-- The reference board is such a run: the handler is entered on the protected
write with the target holding `0xAAAAAAAA`. -/
theorem handler_target_on_protected_write_witness :
    ∃ t, main artyHart (State.init Soc.reset) = default_exception_handler artyHart t ∧
      Event.trap ∈ t.out ∧
      deref artyHart t = DATA_VALUE_NO_PROTECTION ∧
      (main artyHart (State.init Soc.reset)).1 = Outcome.exited 0 :=
  handler_target_on_protected_write artyHart Soc.reset
    { Soc.reset with mtvec := 0x80000000,
                     mem := [(RAM_LOCATION_FOR_TEST, DATA_VALUE_NO_PROTECTION)] }
    { mem := [(RAM_LOCATION_FOR_TEST, DATA_VALUE_NO_PROTECTION)],
      pmpaddr := regionAddrs, pmpcfg0 := PMPCONFIG0, mtvec := 0x80000000, mcause := 7 }
    rfl (by decide) (by decide) (by decide)

/-- Claim C1 on the board with read-only memory at the test location: the initial write
of `0xAAAAAAAA` traps, the handler finds the target not holding `0xEEEEEEEE`,
and the process ends with status `0`, with no PMP register written and the
protected write never made. -/
theorem status_zero_on_initial_write_trap :
    (main readOnlyHart (State.init Soc.reset)).1 = Outcome.exited 0 ∧
      (main readOnlyHart (State.init Soc.reset)).1.status = 0 ∧
      trapSite (main readOnlyHart (State.init Soc.reset)).2.out =
        some (RAM_LOCATION_FOR_TEST, DATA_VALUE_NO_PROTECTION) ∧
      pmpWritesBeforeTrap (main readOnlyHart (State.init Soc.reset)).2.out = [] ∧
      csrWrites (main readOnlyHart (State.init Soc.reset)).2.out = [(Csr.mtvec, 0x08000000)] ∧
      stores (main readOnlyHart (State.init Soc.reset)).2.out =
        [(RAM_LOCATION_FOR_TEST, DATA_VALUE_NO_PROTECTION)] := by
  decide

/-! ## The configured regions -/

/-- The encoded region boundaries as numbers. -/
theorem region_addr_values :
    REGION0_ADDR = 0x10100000 ∧ REGION1_ADDR = 0x20000040 ∧ REGION2_ADDR = 0x20002000 ∧
      REGION3_ADDR = 0x20004000 := by
  decide

/-- Claim C8. Under the Top-of-Range rule, every byte of the 4-byte access at
`RAM_LOCATION_FOR_TEST = 0x80000100` is matched by region 2 and by no
lower-numbered region, so region 2 governs it; and the permission byte of
region 2 in `PMPCONFIG0` has `R` and `X` set and `W` clear. The registers meant
are those the program leaves on the reference board. -/
theorem target_governed_by_region_two :
    RAM_LOCATION_FOR_TEST = 0x80000100 ∧
      (main artyHart (State.init Soc.reset)).2.hart.pmpaddr = regionAddrs ∧
      (main artyHart (State.init Soc.reset)).2.hart.pmpcfg0 = PMPCONFIG0 ∧
      (∀ b, b < 4 →
        torMatches regionAddrs 2 (RAM_LOCATION_FOR_TEST + b) = true ∧
        torMatches regionAddrs 0 (RAM_LOCATION_FOR_TEST + b) = false ∧
        torMatches regionAddrs 1 (RAM_LOCATION_FOR_TEST + b) = false ∧
        governing regionAddrs (RAM_LOCATION_FOR_TEST + b) = some 2) ∧
      hasBit (cfgByte PMPCONFIG0 2) R = true ∧
      hasBit (cfgByte PMPCONFIG0 2) X = true ∧
      hasBit (cfgByte PMPCONFIG0 2) W = false := by
  decide

/-- Claim C9. The configured region boundaries are strictly ascending,
`0x10100000 < 0x20000040 < 0x20002000 < 0x20004000`, and the four Top-of-Range
ranges are pairwise disjoint and cover every encoded address below
`REGION3_ADDR` exactly once. -/
theorem region_ranges_partition :
    (REGION0_ADDR = 0x10100000 ∧ REGION1_ADDR = 0x20000040 ∧ REGION2_ADDR = 0x20002000 ∧
        REGION3_ADDR = 0x20004000) ∧
      (REGION0_ADDR < REGION1_ADDR ∧ REGION1_ADDR < REGION2_ADDR ∧
        REGION2_ADDR < REGION3_ADDR) ∧
      (∀ w i j, i < 4 → j < 4 → torRange regionAddrs i w = true →
        torRange regionAddrs j w = true → i = j) ∧
      (∀ w, w < REGION3_ADDR → ∃! i, i < 4 ∧ torRange regionAddrs i w = true) := by
  obtain ⟨e0, e1, e2, e3⟩ := region_addr_values
  have hr : ∀ i w, i < 4 → (torRange regionAddrs i w = true ↔
      (i = 0 ∧ w < 0x10100000) ∨ (i = 1 ∧ 0x10100000 ≤ w ∧ w < 0x20000040) ∨
      (i = 2 ∧ 0x20000040 ≤ w ∧ w < 0x20002000) ∨
      (i = 3 ∧ 0x20002000 ≤ w ∧ w < 0x20004000)) := by
    intro i w hi
    interval_cases i <;>
      simp [torRange, torLow, regionAddrs, e0, e1, e2, e3]
  refine ⟨⟨e0, e1, e2, e3⟩, by decide, ?_, ?_⟩
  · intro w i j hi hj hiw hjw
    rw [hr i w hi] at hiw
    rw [hr j w hj] at hjw
    omega
  · intro w hw
    rw [e3] at hw
    by_cases h0 : w < 0x10100000
    · refine ⟨0, ⟨by decide, (hr 0 w (by decide)).2 (by omega)⟩, ?_⟩
      rintro j ⟨hj, hjw⟩
      rw [hr j w hj] at hjw
      omega
    · by_cases h1 : w < 0x20000040
      · refine ⟨1, ⟨by decide, (hr 1 w (by decide)).2 (by omega)⟩, ?_⟩
        rintro j ⟨hj, hjw⟩
        rw [hr j w hj] at hjw
        omega
      · by_cases h2 : w < 0x20002000
        · refine ⟨2, ⟨by decide, (hr 2 w (by decide)).2 (by omega)⟩, ?_⟩
          rintro j ⟨hj, hjw⟩
          rw [hr j w hj] at hjw
          omega
        · refine ⟨3, ⟨by decide, (hr 3 w (by decide)).2 (by omega)⟩, ?_⟩
          rintro j ⟨hj, hjw⟩
          rw [hr j w hj] at hjw
          omega

/-! ## The packed configuration register -/

/-- Claim C10. `PMPCONFIG0` is `0x8F8D8D8F` as a 32-bit register value, also
when `A_TOR` is expanded textually to `(1 & 3) << 3`; byte `i` of it is the
intended byte of region `i`, `RWX|A_TOR|L = 0x8F` for regions 0 and 3 and
`RX|A_TOR|L = 0x8D` for regions 1 and 2; every byte has the lock bit set and
mode Top-of-Range; and re-packing the four bytes gives `PMPCONFIG0` back. -/
theorem pmpconfig0_bytes :
    PMPCONFIG0 = 0x8F8D8D8F ∧ u32 PMPCONFIG0 = 0x8F8D8D8F ∧
      PMPCONFIG0_expanded = PMPCONFIG0 ∧
      A_TOR = (1 &&& 3) <<< 3 ∧
      (cfgByte PMPCONFIG0 0 = (RWX ||| A_TOR ||| L) ∧ (RWX ||| A_TOR ||| L) = 0x8F) ∧
      (cfgByte PMPCONFIG0 1 = (RX ||| A_TOR ||| L) ∧ (RX ||| A_TOR ||| L) = 0x8D) ∧
      (cfgByte PMPCONFIG0 2 = (RX ||| A_TOR ||| L) ∧
        cfgByte PMPCONFIG0 3 = (RWX ||| A_TOR ||| L)) ∧
      (∀ i, i < 4 → hasBit (cfgByte PMPCONFIG0 i) L = true ∧
        cfgMode (cfgByte PMPCONFIG0 i) = 1 ∧
        (cfgByte PMPCONFIG0 i) &&& A_NAPOT = A_TOR) ∧
      packCfg (cfgByte PMPCONFIG0 0) (cfgByte PMPCONFIG0 1) (cfgByte PMPCONFIG0 2)
        (cfgByte PMPCONFIG0 3) = PMPCONFIG0 := by
  decide

end PmpBaremetal
